import Mathlib

/-!
# Climate-Risk-Intelligence-Wizard: request orchestration core, verified

A shallow embedding of the request orchestration core of the
Climate-Risk-Intelligence-Wizard repository: the dataset version registry,
the request fingerprint generator (`generateCacheKey`), the TTL cache
(`CacheLayer`), the mock acquisition services, the contract validator
(`validateDashboard`), the orchestration entry point (`getUnifiedDashboard`),
the local HTTP handler (`POST /api/wizard/dashboard`) and the input-drift
invalidation effect of the wizard flow.

JavaScript/TypeScript runtime details are made explicit: machine time is a
`Nat` parameter, `Date.now()`/`new Date().toISOString()` become explicit
arguments, 32-bit signed integer wrap-around in the string hash is `% 2^32`
on `Int`, JS `Array.prototype.join` semantics (an absent value renders as the
empty string) is `optStr`, JS falsiness of strings is emptiness, floating
point dashboard numbers are modelled as `ℚ` (all comparisons used by the
validator are against 0, 1 and 10, where `ℚ` and IEEE doubles agree for the
literals occurring in the source).
-/

set_option maxRecDepth 16384

namespace ClimateWizard

/-- Two characters that are plain text in several source string literals. -/
def lbrace : String := "\x7b"

def rbrace : String := "\x7d"

/-- `precision_level` values, from the TS union type `"exact" | "approximate"`. -/
inductive Precision where
  | exact
  | approximate
deriving DecidableEq, Repr

/-- The string a `Precision` value is at runtime. -/
def Precision.str : Precision → String
  | .exact => "exact"
  | .approximate => "approximate"

/-- `WizardState` from `components/wizard/WizardFlow.tsx` (the fields the
orchestration core reads; `normalized_location` is UI-only and omitted). -/
structure WizardState where
  location_key : Option String
  selected_hazards : List String
  selected_system : Option String
  precision_level : Option Precision
deriving DecidableEq, Repr

/-- JS `Array.prototype.join` renders `undefined` as the empty string. -/
def optStr (o : Option String) : String := o.getD ""

/-- JS string falsiness: `undefined` and `""` are falsy. -/
def optFalsy (o : Option String) : Bool := o.getD "" = ""

/-- `inputs.precision_level || "approximate"` (both enum strings are truthy). -/
def effectivePrecision (p : Option Precision) : String :=
  match p with
  | none => "approximate"
  | some q => q.str

/-- JS `Array.prototype.join(sep)` on a list of strings. -/
def joinJS (sep : String) : List String → String
  | [] => ""
  | [x] => x
  | x :: y :: xs => x ++ sep ++ joinJS sep (y :: xs)

/-- JS `Array.prototype.sort()` on an array of strings sorts lexicographically
by code units; on the BMP strings of this program that is exactly the `String`
linear order, and any correct sort of a linear order yields the unique sorted
permutation, so insertion sort is a faithful model. -/
def sortJS (l : List String) : List String := l.insertionSort (· ≤ ·)

/-- Wrap an integer to a signed 32-bit value, as JS bitwise operators do. -/
def toInt32 (n : Int) : Int :=
  let m := n % 4294967296
  if m < 2147483648 then m else m - 4294967296

/-- One step of the string hash loop of `hashObject`:
`hash = ((hash << 5) - hash) + char; hash = hash & hash` — the shift
wraps at 32 bits and the final `& hash` coerces the sum back to int32. -/
def hashStep (h : Int) (c : Nat) : Int :=
  toInt32 (toInt32 (h * 32) - h + c)

/-- The accumulation loop of `hashObject` over the code units of a string
(all characters involved are ASCII, so code units are code points). -/
def hashString (s : String) : Int :=
  s.data.foldl (fun h c => hashStep h c.toNat) 0

/-- The character JS `Number.prototype.toString(36)` uses for digit `d`. -/
def base36digit (d : Nat) : Char :=
  if d < 10 then Char.ofNat (48 + d) else Char.ofNat (87 + d)

/-- Digit-extraction loop of `Number.prototype.toString(36)`, structurally
recursive on a fuel bound so that it reduces inside the kernel; the fuel is
always sufficient because the value shrinks by a factor of 36 per step. -/
def toBase36Aux : Nat → Nat → String
  | 0, n => String.singleton (base36digit (n % 36))
  | fuel + 1, n =>
      if n < 36 then String.singleton (base36digit n)
      else toBase36Aux fuel (n / 36) ++ String.singleton (base36digit (n % 36))

/-- JS `Number.prototype.toString(36)` on a natural number. -/
def toBase36 (n : Nat) : String := toBase36Aux n n

/-- `hashObject` from `lib/api/orchestrator.ts`, applied to a pre-rendered
`JSON.stringify` image of the object. -/
def hashObject (json : String) : String :=
  toBase36 (hashString json).natAbs

namespace DatasetRegistry

/-- The static version map of `DatasetRegistry` (field order is object key
insertion order, which `JSON.stringify` preserves). -/
def versionsJSON : String :=
  lbrace ++ "\"baseline\":\"CMIP6-v1.2\",\"reanalysis\":\"v5.1\"," ++
  "\"exposure\":\"gap-uw-v2.1\",\"connectivity\":\"commuting-census-2020\"," ++
  "\"observations\":\"noaa-ncei-2024.10\"" ++ rbrace

/-- `DatasetRegistry.hash()`. -/
def hash : String := hashObject versionsJSON

end DatasetRegistry

/-- `generateCacheKey` from `lib/api/orchestrator.ts`. -/
def generateCacheKey (inputs : WizardState) : String :=
  let hazardsKey := joinJS "," (sortJS inputs.selected_hazards)
  let datasetVersionsHash := DatasetRegistry.hash
  joinJS ":"
    [ "wizard",
      optStr inputs.location_key,
      effectivePrecision inputs.precision_level,
      hazardsKey,
      optStr inputs.selected_system,
      datasetVersionsHash ]

/-- The inputs of end-to-end scenario 1. -/
def scenarioInputs : WizardState :=
  { location_key := some "geo_1",
    selected_hazards := ["Heat", "Flood"],
    selected_system := some "Health",
    precision_level := some .approximate }

/-- `scenarioInputs` with the hazard list in the other order. -/
def scenarioInputsSwapped : WizardState :=
  { scenarioInputs with selected_hazards := ["Flood", "Heat"] }

/-!
## Dashboard data model

The shape of `DashboardViewModel` from `contracts/dashboard.ts` (the Zod
schemas there). Enumerated string fields stay `String` and numeric fields are
`ℚ`, so that the contract validator below is a genuine check rather than a
typing artifact; optional Zod fields are `Option`.
-/

structure Coordinates where
  lat : ℚ
  lng : ℚ
deriving DecidableEq, Repr

structure RegionProfile where
  climate_regime : String
  exposure_flags : List String
  urbanicity : Option String
  elevation_band : Option String
  vegetation_class : Option String
deriving DecidableEq, Repr

structure LocationData where
  location_key : String
  normalized_address : String
  coordinates : Option Coordinates
  region_profile : RegionProfile
deriving DecidableEq, Repr

structure ConfidenceInfo where
  level : String
  score : Option ℚ
  reason : String
deriving DecidableEq, Repr

structure Baseline where
  warming_estimate : ℚ
  unit : String
  period_comparison : String
  confidence : ConfidenceInfo
deriving DecidableEq, Repr

structure Drift where
  direction : String
  magnitude : String
  confidence : String
deriving DecidableEq, Repr

structure RiskNode where
  id : String
  label : String
  type : String
  severity : ℚ
  description : String
  drivers : List String
  drift : Drift
  uncertainty : String
deriving DecidableEq, Repr

structure Spillover where
  score : ℚ
  linked_communities : List String
  pathway : String
deriving DecidableEq, Repr

structure RiskChain where
  hazard : String
  system : String
  nodes : List RiskNode
  spillover : Spillover
deriving DecidableEq, Repr

structure DatasetVersion where
  source_id : String
  version : String
  as_of : String
deriving DecidableEq, Repr

structure Metadata where
  as_of_timestamp : String
  dataset_versions : List DatasetVersion
  provenance : String
deriving DecidableEq, Repr

structure DashboardViewModel where
  location : LocationData
  baseline : Baseline
  risk_chain : RiskChain
  metadata : Metadata
deriving DecidableEq, Repr

/-!
## Contract validator

`validateDashboard` from `contracts/dashboard.ts`: Zod parsing of a
`DashboardViewModel`-shaped value, collecting one `path: message` issue per
violated rule in schema order.  Messages of rules that carry a custom
`errorMap`/message in the source are reproduced verbatim; the few rules that
fall back to Zod's built-in message (the optional confidence score range, the
optional urbanicity/coordinate checks and the drift confidence enum) use the
built-in text's fixed prefix, which no claim depends on. -/

/-- One Zod issue rendered the way `validateDashboard` renders it:
`err.path.join('.') ++ ": " ++ err.message`. -/
def issue (path msg : String) : List String := [path ++ ": " ++ msg]

/-- `z.string().min(1, msg)` at `path`. -/
def checkNonempty (path msg s : String) : List String :=
  if s = "" then issue path msg else []

/-- `z.enum(allowed)` with message `msg` at `path`. -/
def checkEnum (path : String) (allowed : List String) (msg s : String) :
    List String :=
  if s ∈ allowed then [] else issue path msg

/-- `z.number().min(lo, msgLo).max(hi, msgHi)` at `path`. -/
def checkRange (path : String) (lo hi : ℚ) (msgLo msgHi : String) (x : ℚ) :
    List String :=
  (if x < lo then issue path msgLo else []) ++
  (if hi < x then issue path msgHi else [])

/-- An optional field validates only when present. -/
def checkOpt (f : α → List String) : Option α → List String
  | none => []
  | some a => f a

/-- `ConfidenceSchema` at `path`. -/
def checkConfidence (path : String) (c : ConfidenceInfo) : List String :=
  checkEnum (path ++ ".level") ["High", "Medium", "Low"]
      "Confidence level must be High, Medium, or Low" c.level ++
  checkOpt (checkRange (path ++ ".score") 0 1
      "Number must be greater than or equal to 0"
      "Number must be less than or equal to 1") c.score ++
  checkNonempty (path ++ ".reason") "Confidence reason is required" c.reason

/-- `CoordinatesSchema` at `path`. -/
def checkCoordinates (path : String) (c : Coordinates) : List String :=
  checkRange (path ++ ".lat") (-90) 90
    "Number must be greater than or equal to -90"
    "Latitude must be between -90 and 90" c.lat ++
  checkRange (path ++ ".lng") (-180) 180
    "Number must be greater than or equal to -180"
    "Longitude must be between -180 and 180" c.lng

/-- `RegionProfileSchema` at `path`. -/
def checkRegionProfile (path : String) (r : RegionProfile) : List String :=
  checkNonempty (path ++ ".climate_regime") "Climate regime is required"
    r.climate_regime ++
  checkOpt (checkEnum (path ++ ".urbanicity") ["urban", "suburban", "rural"]
    "Invalid enum value") r.urbanicity

/-- `LocationSchema` at path `location`. -/
def checkLocation (l : LocationData) : List String :=
  checkNonempty "location.location_key" "location_key is required"
    l.location_key ++
  checkNonempty "location.normalized_address" "normalized_address is required"
    l.normalized_address ++
  checkOpt (checkCoordinates "location.coordinates") l.coordinates ++
  checkRegionProfile "location.region_profile" l.region_profile

/-- `BaselineSchema` at path `baseline`. -/
def checkBaseline (b : Baseline) : List String :=
  checkRange "baseline.warming_estimate" 0 10
    "Warming estimate must be non-negative"
    "Warming estimate must be realistic (≤10°C)" b.warming_estimate ++
  (if b.unit = "°C" then [] else issue "baseline.unit" "Unit must be °C") ++
  checkNonempty "baseline.period_comparison" "Period comparison is required"
    b.period_comparison ++
  checkConfidence "baseline.confidence" b.confidence

/-- `DriftSchema` at `path`. -/
def checkDrift (path : String) (d : Drift) : List String :=
  checkEnum (path ++ ".direction") ["↑", "↓", "→"]
    "Drift direction must be ↑, ↓, or →" d.direction ++
  checkEnum (path ++ ".magnitude") ["Strong", "Moderate", "Weak"]
    "Drift magnitude must be Strong, Moderate, or Weak" d.magnitude ++
  checkEnum (path ++ ".confidence") ["High", "Medium", "Low"]
    "Invalid enum value" d.confidence

/-- `RiskNodeSchema` at `path`. -/
def checkRiskNode (path : String) (n : RiskNode) : List String :=
  checkNonempty (path ++ ".id") "Node ID is required" n.id ++
  checkNonempty (path ++ ".label") "Node label is required" n.label ++
  checkEnum (path ++ ".type")
    ["Risk", "Impact", "Stress", "Response", "Market", "Behavior", "Feedback"]
    "Node type must be valid enum value" n.type ++
  checkRange (path ++ ".severity") 0 1
    "Severity must be >= 0" "Severity must be <= 1" n.severity ++
  checkNonempty (path ++ ".description") "Node description is required"
    n.description ++
  checkDrift (path ++ ".drift") n.drift ++
  checkNonempty (path ++ ".uncertainty") "Uncertainty description is required"
    n.uncertainty

/-- Zod array element parsing: each element at its index path. -/
def checkIndexed (path : String) (f : String → α → List String) :
    Nat → List α → List String
  | _, [] => []
  | i, a :: as =>
      f (path ++ "." ++ toString i) a ++ checkIndexed path f (i + 1) as

/-- `SpilloverSchema` at path `risk_chain.spillover`. -/
def checkSpillover (s : Spillover) : List String :=
  checkRange "risk_chain.spillover.score" 0 1
    "Spillover score must be >= 0" "Spillover score must be <= 1" s.score ++
  checkNonempty "risk_chain.spillover.pathway" "Spillover pathway is required"
    s.pathway

/-- `RiskChainSchema` at path `risk_chain`. -/
def checkRiskChain (c : RiskChain) : List String :=
  checkNonempty "risk_chain.hazard" "Hazard is required" c.hazard ++
  checkNonempty "risk_chain.system" "System is required" c.system ++
  (if c.nodes = [] then
    issue "risk_chain.nodes" "Risk chain must have at least one node"
   else []) ++
  checkIndexed "risk_chain.nodes" checkRiskNode 0 c.nodes ++
  checkSpillover c.spillover

/-- `DatasetVersionSchema` at `path`. -/
def checkDatasetVersion (path : String) (v : DatasetVersion) : List String :=
  checkNonempty (path ++ ".source_id") "Source ID is required" v.source_id ++
  checkNonempty (path ++ ".version") "Version is required" v.version ++
  checkNonempty (path ++ ".as_of") "as_of timestamp is required" v.as_of

/-- `MetadataSchema` at path `metadata`. -/
def checkMetadata (m : Metadata) : List String :=
  checkNonempty "metadata.as_of_timestamp" "as_of_timestamp is required"
    m.as_of_timestamp ++
  (if m.dataset_versions = [] then
    issue "metadata.dataset_versions" "At least one dataset version is required"
   else []) ++
  checkIndexed "metadata.dataset_versions" checkDatasetVersion 0
    m.dataset_versions ++
  checkNonempty "metadata.provenance" "Provenance description is required"
    m.provenance

/-- The structured result `validateDashboard` returns.  In the source a
success carries no `errors` field at all; here `errors` is `[]` on success. -/
structure ValidationResult where
  success : Bool
  errors : List String
deriving DecidableEq, Repr

/-- Specification vocabulary for C7: every reported error is a field path
followed by `": "` and a message. -/
def IssueShaped (l : List String) : Prop :=
  ∀ e ∈ l, ∃ p m, e = p ++ ": " ++ m

/-- `validateDashboard` from `contracts/dashboard.ts`:
`DashboardViewModelSchema.parse` inside try/catch, mapping a `ZodError` to
the list of `path.join('.') + ": " + message` strings, never throwing. -/
def validateDashboard (d : DashboardViewModel) : ValidationResult :=
  let errs :=
    checkLocation d.location ++ checkBaseline d.baseline ++
    checkRiskChain d.risk_chain ++ checkMetadata d.metadata
  { success := errs.isEmpty, errors := errs }

/-!
## Mock acquisition services

`LocationService`, `ClimateService`, `RiskService` from
`lib/api/orchestrator.ts`.  The source file stores its non-ASCII literals
double-UTF-8-encoded: the bytes of the baseline unit literal decode to the
three code points U+00C2 U+00B0 'C' (not `"°C"`), and the drift direction
literals decode to U+00E2 U+2020 U+2018 (not `"↑"`) and U+00E2 U+2020 U+2019
(not `"→"`).  The embedding reproduces those literals exactly as the
TypeScript runtime sees them. -/

/-- The baseline `unit` literal of `ClimateService.getBaseline` as it is in
the file: `Â°C` (bytes C3 82 C2 B0 43). -/
def mockUnit : String := ⟨[Char.ofNat 0xC2, Char.ofNat 0xB0, 'C']⟩

/-- The upward drift literal of `RiskService.getChain` as it is in the file
(bytes C3 A2 E2 80 A0 E2 80 98, not U+2191). -/
def mockArrowUp : String := ⟨[Char.ofNat 0xE2, Char.ofNat 0x2020, Char.ofNat 0x2018]⟩

/-- The flat drift literal of `RiskService.getChain` as it is in the file
(bytes C3 A2 E2 80 A0 E2 80 99, not U+2192). -/
def mockArrowRight : String := ⟨[Char.ofNat 0xE2, Char.ofNat 0x2020, Char.ofNat 0x2019]⟩

/-- `LocationService.getRegion` (modulo its artificial latency). -/
def LocationService.getRegion (location_key : String) : LocationData :=
  { location_key,
    normalized_address := "Manhattan, New York, NY",
    coordinates := none,
    region_profile :=
      { climate_regime := "Humid Subtropical",
        exposure_flags := ["Coastal", "Urban Heat Island"],
        urbanicity := none, elevation_band := none, vegetation_class := none } }

/-- `ClimateService.getBaseline` (modulo its artificial latency). -/
def ClimateService.getBaseline (inputs : WizardState) : Baseline :=
  let exact := inputs.precision_level = some Precision.exact
  { warming_estimate := if exact then mkRat 7 5 else mkRat 6 5,
    unit := mockUnit,
    period_comparison := "vs 1850-1900 global baseline",
    confidence :=
      { level := if exact then "High" else "Medium",
        score := none,
        reason := if exact then "Anchored to NOAA v5.1 modern reanalysis"
                  else "ERA5 reanalysis with bias correction" } }

/-- JS `inputs.selected_hazards[0] || "Heat"`. -/
def firstHazard (l : List String) : String :=
  match l with
  | [] => "Heat"
  | h :: _ => if h = "" then "Heat" else h

/-- `RiskService.getChain` (modulo its artificial latency). -/
def RiskService.getChain (inputs : WizardState) : RiskChain :=
  let hazardLabel := firstHazard inputs.selected_hazards
  let systemLabel := if optFalsy inputs.selected_system then "Health"
                     else optStr inputs.selected_system
  { hazard := hazardLabel,
    system := systemLabel,
    nodes :=
      [ { id := "node_1", type := "Risk",
          label := "Extreme " ++ hazardLabel ++ " Event", severity := mkRat 17 20,
          description := "Primary hazard intensification event",
          drivers := ["Climate Change", "Natural Variability"],
          drift := ⟨mockArrowUp, "Strong", "High"⟩, uncertainty := "Low" },
        { id := "node_2", type := "Impact",
          label := "Infrastructure Stress", severity := mkRat 7 10,
          description := "Physical degradation of critical assets",
          drivers := ["Extreme Heat", "Aging Infrastructure"],
          drift := ⟨mockArrowUp, "Moderate", "Medium"⟩, uncertainty := "Medium" },
        { id := "node_3", type := "Stress",
          label := systemLabel ++ " System Pressure", severity := mkRat 18 25,
          description := "Operational capacity near limits",
          drivers := ["Infrastructure Stress", "Demand Surge"],
          drift := ⟨mockArrowRight, "Weak", "Medium"⟩, uncertainty := "Medium" },
        { id := "node_4", type := "Response",
          label := "Emergency Response Activation", severity := mkRat 29 50,
          description := "Deployment of contingency resources",
          drivers := ["System Pressure"],
          drift := ⟨mockArrowRight, "Weak", "Low"⟩, uncertainty := "High" },
        { id := "node_5", type := "Market",
          label := "Economic Ripple Effects", severity := mkRat 9 20,
          description := "Localized financial disruption",
          drivers := ["System Pressure", "Response Costs"],
          drift := ⟨mockArrowUp, "Moderate", "Medium"⟩, uncertainty := "High" },
        { id := "node_6", type := "Behavior",
          label := "Population Adaptation", severity := mkRat 13 25,
          description := "Short-term behavioral shifts",
          drivers := ["Perceived Risk"],
          drift := ⟨mockArrowRight, "Weak", "Low"⟩, uncertainty := "Very High" },
        { id := "node_7", type := "Feedback",
          label := "Systemic Feedback Loop", severity := mkRat 19 50,
          description := "Reinforcing cycle of vulnerability",
          drivers := ["Economic Ripple Effects", "Population Adaptation"],
          drift := ⟨mockArrowUp, "Strong", "Low"⟩, uncertainty := "High" } ],
    spillover :=
      { score := mkRat 31 50,
        linked_communities :=
          ["Adjacent Metro Area", "Upstream Region", "Connected Zone"],
        pathway := "Commuting/Labor" } }

/-- `DatasetRegistry.toArray()`. -/
def DatasetRegistry.toArray : List DatasetVersion :=
  [ ⟨"IPCC-AR6", "CMIP6-v1.2", "2023-11-10"⟩,
    ⟨"NOAA", "v5.1", "2024-01-15"⟩,
    ⟨"ERA5", "noaa-ncei-2024.10", "2024-02-01"⟩ ]

/-- The mock-mode dispatch of `getUnifiedDashboard`: the fan-out/fan-in join
of the three mock services plus the metadata block; `ts` is the value of
`new Date().toISOString()` at assembly time. -/
def mockDispatch (ts : String) (inputs : WizardState) : DashboardViewModel :=
  { location := LocationService.getRegion (optStr inputs.location_key),
    baseline := ClimateService.getBaseline inputs,
    risk_chain := RiskService.getChain inputs,
    metadata :=
      { as_of_timestamp := ts,
        dataset_versions := DatasetRegistry.toArray,
        provenance :=
          "Combined regional anomaly modeling with local connectivity graph service." } }

/-!
## Cache layer

`CacheLayer` from `lib/api/orchestrator.ts`, with `Date.now()` passed
explicitly and the backing `Map` as a function from keys to entries. -/

structure CacheEntry where
  value : DashboardViewModel
  expiresAt : Nat

/-- The backing `Map<string, CacheEntry>` of a `CacheLayer` instance. -/
def CacheLayer := String → Option CacheEntry

/-- The cache a fresh `CacheLayer` instance holds. -/
def CacheLayer.empty : CacheLayer := fun _ => none

/-- `CacheLayer.get`: an expired entry is deleted and treated as absent. -/
def CacheLayer.get (c : CacheLayer) (now : Nat) (key : String) :
    Option DashboardViewModel × CacheLayer :=
  match c key with
  | none => (none, c)
  | some entry =>
      if now > entry.expiresAt then
        (none, fun k => if k = key then none else c k)
      else
        (some entry.value, c)

/-- `CacheLayer.set` with an explicit `ttl` argument. -/
def CacheLayer.set (c : CacheLayer) (now : Nat) (key : String)
    (value : DashboardViewModel) (ttl : Nat) : CacheLayer :=
  fun k => if k = key then some ⟨value, now + ttl⟩ else c k

/-- `CacheLayer.set` with the `ttl` argument left to its default `3600000`
(the form the orchestrator calls). -/
def CacheLayer.setD (c : CacheLayer) (now : Nat) (key : String)
    (value : DashboardViewModel) : CacheLayer :=
  c.set now key value 3600000

/-!
## Orchestration entry point

`getUnifiedDashboard` from `lib/api/orchestrator.ts` as an explicit state
transformer over the module-level `cacheLayer` instance.  The process mode
(`isMockMode()`) and, in real mode, the outcome of the single `fetch` (a
parsed body on a 2xx response, or the thrown error message otherwise) are
oracle parameters; `now` is `Date.now()` and `ts` is
`new Date().toISOString()`.  The result additionally records which effects
ran (dispatch, validation), which the source exposes through its logger. -/

inductive Mode where
  | mock
  | real
deriving DecidableEq, Repr

/-- What happened during one orchestration call, beyond its return value. -/
structure OrchEffects where
  dispatched : Bool
  validated : Bool
deriving DecidableEq, Repr

/-- The outcome of one `getUnifiedDashboard` call: the returned dashboard or
the thrown error message, the cache afterwards, and the effects that ran. -/
structure OrchOutcome where
  result : Except String DashboardViewModel
  cache : CacheLayer
  effects : OrchEffects

/-- The input guard of `getUnifiedDashboard`:
`!inputs.location_key || !inputs.selected_hazards.length || !inputs.selected_system`. -/
def missingInputs (inputs : WizardState) : Bool :=
  optFalsy inputs.location_key || inputs.selected_hazards.isEmpty ||
    optFalsy inputs.selected_system

/-- The message of the input error `getUnifiedDashboard` throws. -/
def missingInputsMsg : String :=
  "Missing required inputs: location_key, selected_hazards, selected_system"

/-- `getUnifiedDashboard`: validate inputs, compute the fingerprint, check
the cache, on a miss dispatch (mock fan-in or the remote oracle), validate,
store with the default TTL, return. -/
def getUnifiedDashboard (mode : Mode)
    (remote : Except String DashboardViewModel) (now : Nat) (ts : String)
    (inputs : WizardState) (cache : CacheLayer) : OrchOutcome :=
  if missingInputs inputs then
    { result := .error missingInputsMsg, cache,
      effects := { dispatched := false, validated := false } }
  else
    let cacheKey := generateCacheKey inputs
    match cache.get now cacheKey with
    | (some cached, c1) =>
        { result := .ok cached, cache := c1,
          effects := { dispatched := false, validated := false } }
    | (none, c1) =>
        let fetched : Except String DashboardViewModel :=
          match mode with
          | .mock => .ok (mockDispatch ts inputs)
          | .real => remote
        match fetched with
        | .error e =>
            { result := .error e, cache := c1,
              effects := { dispatched := true, validated := false } }
        | .ok dashboard =>
            let validation := validateDashboard dashboard
            if validation.success then
              { result := .ok dashboard,
                cache := c1.setD now cacheKey dashboard,
                effects := { dispatched := true, validated := true } }
            else
              { result := .error ("Invalid dashboard structure: " ++
                  joinJS ", " validation.errors),
                cache := c1,
                effects := { dispatched := true, validated := true } }

/-!
## Local HTTP surface

The handler of `pages/api/wizard/dashboard.ts`.  A request body is the
untrusted JSON the route receives; `selected_hazards` is `none` when the key
is absent.  The response is a status code plus either a dashboard or an
`{error, message}` body. -/

structure DashboardRequestBody where
  location_key : Option String
  selected_hazards : Option (List String)
  selected_system : Option String
  precision_level : Option Precision
deriving DecidableEq, Repr

inductive ApiResponse where
  | dashboard (d : DashboardViewModel)
  | failure (error message : String)

/-- The `!dashboardRequest.location_key || !dashboardRequest.selected_hazards?.length`
guard of the route (an absent array and an empty array are both falsy). -/
def routeGuardFails (body : DashboardRequestBody) : Bool :=
  optFalsy body.location_key || (body.selected_hazards.getD []).isEmpty

/-- The `WizardState` the route builds from the request body
(`precision_level: dashboardRequest.precision_level || "approximate"`;
`selected_system` is passed through unchecked). -/
def routeWizardState (body : DashboardRequestBody) : WizardState :=
  { location_key := body.location_key,
    selected_hazards := body.selected_hazards.getD [],
    selected_system := body.selected_system,
    precision_level := some (body.precision_level.getD .approximate) }

/-- The HTTP status and body the route handler sends, given the request
method and body (and the orchestrator oracle parameters). -/
def handler (mode : Mode) (remote : Except String DashboardViewModel)
    (now : Nat) (ts : String) (method : String) (body : DashboardRequestBody)
    (cache : CacheLayer) : (Nat × ApiResponse) × CacheLayer :=
  if method ≠ "POST" then
    ((405, .failure "method_not_allowed" "Only POST allowed"), cache)
  else if routeGuardFails body then
    ((400, .failure "invalid_request"
        "Missing required fields: location_key, selected_hazards"), cache)
  else
    let outcome :=
      getUnifiedDashboard mode remote now ts (routeWizardState body) cache
    match outcome.result with
    | .ok d => ((200, .dashboard d), outcome.cache)
    | .error msg =>
        ((500, .failure "internal_server_error" msg), outcome.cache)

/-!
## Input-drift invalidation

The drift-invalidation `useEffect` of `WizardFlow` and its
`generateDashboardKey` helper, as a pure transition on the component state
the effect reads and writes. -/

/-- `JSON.stringify` escaping of one character inside a string literal. -/
def jsonEscapeChar (c : Char) : String :=
  if c = '"' then "\\\""
  else if c = '\\' then "\\\\"
  else if c = Char.ofNat 8 then "\\b"
  else if c = Char.ofNat 9 then "\\t"
  else if c = Char.ofNat 10 then "\\n"
  else if c = Char.ofNat 12 then "\\f"
  else if c = Char.ofNat 13 then "\\r"
  else if c.toNat < 32 then
    "\\u00" ++ String.singleton (base36digit (c.toNat / 16)) ++
      String.singleton (base36digit (c.toNat % 16))
  else String.singleton c

/-- `JSON.stringify` of a string value. -/
def jsonString (s : String) : String :=
  "\"" ++ String.join (s.data.map jsonEscapeChar) ++ "\""

/-- `JSON.stringify` of a string or of `undefined` in value position:
inside `JSON.stringify({key: undefined})` the key is dropped, which the
caller below handles; in an array `undefined` renders as `null`. -/
def jsonField (key : String) (v : Option String) : List String :=
  match v with
  | none => []
  | some s => [jsonString key ++ ":" ++ jsonString s]

/-- `generateDashboardKey` from `WizardFlow.tsx`: `JSON.stringify` of
`{location_key, hazards: sorted hazards, system, precision}` (keys holding
`undefined` are omitted by `JSON.stringify`). -/
def generateDashboardKey (state : WizardState) : String :=
  lbrace ++
    joinJS ","
      (jsonField "location_key" state.location_key ++
       [jsonString "hazards" ++ ":[" ++
          joinJS "," ((sortJS state.selected_hazards).map jsonString) ++ "]"] ++
       jsonField "system" state.selected_system ++
       [jsonString "precision" ++ ":" ++
          jsonString (effectivePrecision state.precision_level)]) ++
  rbrace

/-- The `WizardFlow` component state the drift effect touches. -/
structure FlowState where
  currentStep : Nat
  wizardState : WizardState
  dashboardData : Option DashboardViewModel
  dashboardRequestKey : Option String
  dashboardError : Option String

/-- The drift-invalidation `useEffect` body of `WizardFlow` (it runs whenever
one of the four wizard input fields changes): with a dashboard displayed and
a recorded request key that differs from the key of the current inputs, it
discards the dashboard, clears the key and the error, and navigates back to
step 3 when past it; otherwise it changes nothing. -/
def driftEffect (s : FlowState) : FlowState :=
  match s.dashboardData with
  | none => s
  | some _ =>
      let currentKey := generateDashboardKey s.wizardState
      match s.dashboardRequestKey with
      | none => s
      | some k1 =>
          if k1 ≠ "" ∧ currentKey ≠ k1 then
            { s with
              dashboardData := none,
              dashboardRequestKey := none,
              dashboardError := none,
              currentStep := if s.currentStep > 3 then 3 else s.currentStep }
          else s

/-!
## Concrete test vectors -/

/-- A well-formed dashboard (a remote response satisfying every contract
rule), used as a concrete input in witnesses. -/
def sampleValidDashboard : DashboardViewModel :=
  { location := LocationService.getRegion "geo_1",
    baseline :=
      { warming_estimate := mkRat 6 5, unit := "°C",
        period_comparison := "vs 1850-1900 global baseline",
        confidence :=
          ⟨"Medium", none, "ERA5 reanalysis with bias correction"⟩ },
    risk_chain :=
      { hazard := "Heat", system := "Health",
        nodes :=
          [ { id := "node_1", type := "Risk", label := "Extreme Heat Event",
              severity := mkRat 17 20,
              description := "Primary hazard intensification event",
              drivers := ["Climate Change"],
              drift := ⟨"↑", "Strong", "High"⟩, uncertainty := "Low" } ],
        spillover := ⟨mkRat 31 50, ["Adjacent Metro Area"], "Commuting/Labor"⟩ },
    metadata :=
      { as_of_timestamp := "2024-06-01T00:00:00.000Z",
        dataset_versions := DatasetRegistry.toArray,
        provenance := "Remote service response." } }

/-- Scenario 3's invalid payload: `sampleValidDashboard` with
`risk_chain.spillover.score` mutated to `1.2`. -/
def spilloverOutOfRangeDashboard : DashboardViewModel :=
  { sampleValidDashboard with
    risk_chain :=
      { sampleValidDashboard.risk_chain with
        spillover :=
          { sampleValidDashboard.risk_chain.spillover with score := mkRat 6 5 } } }

/-- A valid input snapshot whose `selected_system` contains the `:` field
delimiter of the fingerprint. -/
def collideA : WizardState :=
  { location_key := some "geo_1", selected_hazards := ["h"],
    selected_system := some "x:y", precision_level := some .approximate }

/-- A valid input snapshot with a different hazard set and a different
system than `collideA`, colliding with its fingerprint. -/
def collideB : WizardState :=
  { location_key := some "geo_1", selected_hazards := ["h:x"],
    selected_system := some "y", precision_level := some .approximate }

/-- Scenario 1's inputs with `precision_level` absent instead of
`"approximate"`. -/
def scenarioNoPrecision : WizardState :=
  { scenarioInputs with precision_level := none }

/-- A POST body that carries `location_key` and `selected_hazards` but no
`selected_system`. -/
def missingSystemBody : DashboardRequestBody :=
  { location_key := some "geo_1", selected_hazards := some ["Heat"],
    selected_system := none, precision_level := some .approximate }

/-- A cache that already holds an unexpired scenario-1 entry (expiry 10). -/
def primedCache : CacheLayer :=
  fun k => if k = generateCacheKey scenarioInputs then
    some ⟨sampleValidDashboard, 10⟩ else none

end ClimateWizard

namespace ClimateWizard

/-- Sorting is invariant under permutation of the input list. -/
theorem sortJS_perm_eq {l1 l2 : List String} (h : l1.Perm l2) :
    sortJS l1 = sortJS l2 := by
  exact List.eq_of_perm_of_sorted
    (((List.perm_insertionSort _ l1).trans h).trans
      (List.perm_insertionSort _ l2).symm)
    (List.sorted_insertionSort (· ≤ ·) l1)
    (List.sorted_insertionSort (· ≤ ·) l2)

/-- Strings with equal character data are equal. -/
theorem str_ext {a b : String} (h : a.data = b.data) : a = b := by
  cases a
  cases b
  exact congrArg String.mk h

/-- `String.append` concatenates the character data. -/
theorem data_append (a b : String) : (a ++ b).data = a.data ++ b.data := by
  cases a
  cases b
  rfl

/-- String concatenation is associative. -/
theorem str_append_assoc (a b c : String) : a ++ b ++ c = a ++ (b ++ c) := by
  apply str_ext
  simp [data_append]

/-- C1: the fingerprint is invariant under permutation of `selected_hazards`:
for every `WizardState` with `location_key` set, non-empty hazards and
`selected_system` set, permuting the hazard list leaves `generateCacheKey`
unchanged. -/
theorem cache_key_hazard_order_invariant (ws : WizardState) (hz : List String)
    (hloc : ws.location_key.isSome) (hnz : ws.selected_hazards ≠ [])
    (hsys : ws.selected_system.isSome)
    (hperm : hz.Perm ws.selected_hazards) :
    generateCacheKey { ws with selected_hazards := hz } = generateCacheKey ws := by
  simp only [generateCacheKey]
  rw [sortJS_perm_eq hperm]

/-- C1 witness: the two orderings of `["Heat","Flood"]` in scenario 1 share a
fingerprint. -/
theorem cache_key_hazard_order_invariant_witness :
    generateCacheKey scenarioInputsSwapped = generateCacheKey scenarioInputs :=
  cache_key_hazard_order_invariant scenarioInputs ["Flood", "Heat"]
    (by decide) (by decide) (by decide) (by decide)

/-- C3, evaluated at the failing input of scenario 1: in mock mode on a cache
miss, the assembled dashboard's `baseline.unit` is the double-encoded literal
`Â°C` and not `"°C"`, the contract validator rejects it, and
`getUnifiedDashboard` therefore throws `Invalid dashboard structure: …`
instead of returning a `DashboardResult`. -/
theorem mock_scenario_dashboard_rejected :
    (mockDispatch "2024-01-01T00:00:00.000Z" scenarioInputs).baseline.unit ≠ "°C" ∧
    (mockDispatch "2024-01-01T00:00:00.000Z" scenarioInputs).risk_chain.nodes.length ≥ 1 ∧
    (validateDashboard
        (mockDispatch "2024-01-01T00:00:00.000Z" scenarioInputs)).success = false ∧
    (getUnifiedDashboard .mock (.error "unused") 0 "2024-01-01T00:00:00.000Z"
        scenarioInputs CacheLayer.empty).result =
      .error ("Invalid dashboard structure: " ++ joinJS ", "
        (validateDashboard
          (mockDispatch "2024-01-01T00:00:00.000Z" scenarioInputs)).errors) := by
  refine ⟨by decide, by decide, by decide, ?_⟩
  rfl

/-- C4: immediately after `set k v ttl` a `get` at the same clock returns
`v`; a read past `expiresAt` returns absent and deletes the entry; a second
`set` on the same key overwrites the entry and restarts the TTL clock; the
`ttl`-omitted form of `set` uses 3,600,000 ms. -/
theorem cacheLayer_ttl_contract :
    (∀ (c : CacheLayer) (now : Nat) (k : String) (v : DashboardViewModel)
        (ttl : Nat), ((c.set now k v ttl).get now k).1 = some v) ∧
    (∀ (c : CacheLayer) (k : String) (e : CacheEntry) (now2 : Nat),
        c k = some e → now2 > e.expiresAt →
        (c.get now2 k).1 = none ∧ (c.get now2 k).2 k = none) ∧
    (∀ (c : CacheLayer) (now1 now2 : Nat) (k : String)
        (v1 v2 : DashboardViewModel) (ttl1 ttl2 : Nat),
        ((c.set now1 k v1 ttl1).set now2 k v2 ttl2) k = some ⟨v2, now2 + ttl2⟩) ∧
    (∀ (c : CacheLayer) (now : Nat) (k : String) (v : DashboardViewModel),
        c.setD now k v = c.set now k v 3600000) := by
  refine ⟨?_, ?_, ?_, ?_⟩
  · intro c now k v ttl
    simp [CacheLayer.get, CacheLayer.set]
  · intro c k e now2 hck hgt
    simp [CacheLayer.get, hck, hgt]
  · intro c now1 now2 k v1 v2 ttl1 ttl2
    simp [CacheLayer.set]
  · intro c now k v
    rfl

/-- C4 witness: the contract at a concrete key, value and clock. -/
theorem cacheLayer_ttl_contract_witness :
    ((CacheLayer.empty.set 0 "k" sampleValidDashboard 5).get 0 "k").1 =
      some sampleValidDashboard ∧
    ((CacheLayer.empty.set 0 "k" sampleValidDashboard 5).get 6 "k").1 = none ∧
    ((CacheLayer.empty.set 0 "k" sampleValidDashboard 5).get 6 "k").2 "k" =
      none ∧
    ((CacheLayer.empty.set 0 "k" sampleValidDashboard 5).set 7 "k"
        sampleValidDashboard 9) "k" = some ⟨sampleValidDashboard, 16⟩ ∧
    CacheLayer.empty.setD 0 "k" sampleValidDashboard =
      CacheLayer.empty.set 0 "k" sampleValidDashboard 3600000 := by
  have h2 := cacheLayer_ttl_contract.2.1
    (CacheLayer.empty.set 0 "k" sampleValidDashboard 5) "k"
    ⟨sampleValidDashboard, 5⟩ 6 (by simp [CacheLayer.set]) (by decide)
  exact ⟨cacheLayer_ttl_contract.1 CacheLayer.empty 0 "k" sampleValidDashboard 5,
    h2.1, h2.2,
    cacheLayer_ttl_contract.2.2.1 CacheLayer.empty 0 7 "k"
      sampleValidDashboard sampleValidDashboard 5 9,
    cacheLayer_ttl_contract.2.2.2 CacheLayer.empty 0 "k" sampleValidDashboard⟩

/-- C6: when `location_key` is unset, or `selected_hazards` is empty, or
`selected_system` is unset, `getUnifiedDashboard` fails at once with the
descriptive input error; no fingerprint is used, nothing is dispatched or
validated, and the cache is returned unchanged. -/
theorem missing_inputs_fail_before_io (mode : Mode)
    (remote : Except String DashboardViewModel) (now : Nat) (ts : String)
    (inputs : WizardState) (cache : CacheLayer)
    (h : inputs.location_key = none ∨ inputs.selected_hazards = [] ∨
      inputs.selected_system = none) :
    getUnifiedDashboard mode remote now ts inputs cache =
      { result := .error missingInputsMsg, cache := cache,
        effects := { dispatched := false, validated := false } } := by
  have hm : missingInputs inputs = true := by
    rcases h with h | h | h <;>
      simp [missingInputs, optFalsy, h, List.isEmpty_iff]
  simp [getUnifiedDashboard, hm]

/-- C6 witness: scenario 4's empty hazard list fails with the input error and
leaves the empty cache empty. -/
theorem missing_inputs_fail_before_io_witness :
    getUnifiedDashboard .mock (.error "unused") 0 "t"
      { location_key := some "geo_1", selected_hazards := [],
        selected_system := some "Health", precision_level := none }
      CacheLayer.empty =
      { result := .error missingInputsMsg, cache := CacheLayer.empty,
        effects := { dispatched := false, validated := false } } :=
  missing_inputs_fail_before_io .mock (.error "unused") 0 "t" _
    CacheLayer.empty (Or.inr (Or.inl rfl))

/-- C10: in mock mode the dispatched `risk_chain.hazard` is the first
selected hazard in the order supplied (before sorting) and
`risk_chain.system` is the selected system; consequently the two orderings of
scenario 1's hazard set share a fingerprint but dispatch dashboards that
differ in `risk_chain.hazard`. -/
theorem mock_dispatch_depends_on_hazard_order :
    (∀ (ts : String) (inputs : WizardState) (h : String) (rest : List String),
        inputs.selected_hazards = h :: rest → h ≠ "" →
        (mockDispatch ts inputs).risk_chain.hazard = h) ∧
    (∀ (ts : String) (inputs : WizardState) (sys : String),
        inputs.selected_system = some sys → sys ≠ "" →
        (mockDispatch ts inputs).risk_chain.system = sys) ∧
    (scenarioInputsSwapped.selected_hazards.Perm
        scenarioInputs.selected_hazards ∧
     generateCacheKey scenarioInputsSwapped = generateCacheKey scenarioInputs ∧
     (mockDispatch "t" scenarioInputsSwapped).risk_chain.hazard ≠
       (mockDispatch "t" scenarioInputs).risk_chain.hazard) := by
  refine ⟨?_, ?_, by decide, ?_, by decide⟩
  · intro ts inputs h rest hh hne
    simp [mockDispatch, RiskService.getChain, firstHazard, hh, hne]
  · intro ts inputs sys hs hne
    simp [mockDispatch, RiskService.getChain, optFalsy, optStr, hs, hne]
  · exact congrArg
      (fun l : List String => joinJS ":"
        [ "wizard", optStr scenarioInputs.location_key,
          effectivePrecision scenarioInputs.precision_level, joinJS "," l,
          optStr scenarioInputs.selected_system, DatasetRegistry.hash ])
      (sortJS_perm_eq (List.Perm.swap "Heat" "Flood" []))

/-- C10 witness: the swapped ordering dispatches `Flood` as the chain hazard
and `Health` as the chain system. -/
theorem mock_dispatch_depends_on_hazard_order_witness :
    (mockDispatch "t" scenarioInputsSwapped).risk_chain.hazard = "Flood" ∧
    (mockDispatch "t" scenarioInputsSwapped).risk_chain.system = "Health" :=
  ⟨mock_dispatch_depends_on_hazard_order.1 "t" scenarioInputsSwapped "Flood"
      ["Heat"] rfl (by decide),
   mock_dispatch_depends_on_hazard_order.2.1 "t" scenarioInputsSwapped
      "Health" rfl (by decide)⟩

theorem issueShaped_nil : IssueShaped [] := by
  intro e he
  cases he

theorem issueShaped_append {l1 l2 : List String} (h1 : IssueShaped l1)
    (h2 : IssueShaped l2) : IssueShaped (l1 ++ l2) := by
  intro e he
  rcases List.mem_append.mp he with h | h
  · exact h1 e h
  · exact h2 e h

theorem issueShaped_ite (c : Prop) [Decidable c] {l1 l2 : List String}
    (h1 : IssueShaped l1) (h2 : IssueShaped l2) :
    IssueShaped (if c then l1 else l2) := by
  split
  · exact h1
  · exact h2

theorem issueShaped_issue (p m : String) : IssueShaped (issue p m) := by
  intro e he
  exact ⟨p, m, by simpa [issue] using he⟩

theorem issueShaped_checkNonempty (p m s : String) :
    IssueShaped (checkNonempty p m s) :=
  issueShaped_ite _ (issueShaped_issue p m) issueShaped_nil

theorem issueShaped_checkEnum (p : String) (allowed : List String)
    (m s : String) : IssueShaped (checkEnum p allowed m s) :=
  issueShaped_ite _ issueShaped_nil (issueShaped_issue p m)

theorem issueShaped_checkRange (p : String) (lo hi : ℚ) (m1 m2 : String)
    (x : ℚ) : IssueShaped (checkRange p lo hi m1 m2 x) :=
  issueShaped_append
    (issueShaped_ite _ (issueShaped_issue p m1) issueShaped_nil)
    (issueShaped_ite _ (issueShaped_issue p m2) issueShaped_nil)

theorem issueShaped_checkOpt {f : α → List String}
    (hf : ∀ a, IssueShaped (f a)) (o : Option α) :
    IssueShaped (checkOpt f o) := by
  cases o
  · exact issueShaped_nil
  · exact hf _

theorem issueShaped_checkIndexed {f : String → α → List String}
    (hf : ∀ p a, IssueShaped (f p a)) (path : String) :
    ∀ (i : Nat) (l : List α), IssueShaped (checkIndexed path f i l) := by
  intro i l
  induction l generalizing i with
  | nil => exact issueShaped_nil
  | cons a as ih => exact issueShaped_append (hf _ a) (ih _)

theorem issueShaped_checkConfidence (p : String) (c : ConfidenceInfo) :
    IssueShaped (checkConfidence p c) :=
  issueShaped_append
    (issueShaped_append (issueShaped_checkEnum _ _ _ _)
      (issueShaped_checkOpt (fun _ => issueShaped_checkRange _ _ _ _ _ _) _))
    (issueShaped_checkNonempty _ _ _)

theorem issueShaped_checkCoordinates (p : String) (c : Coordinates) :
    IssueShaped (checkCoordinates p c) :=
  issueShaped_append (issueShaped_checkRange _ _ _ _ _ _)
    (issueShaped_checkRange _ _ _ _ _ _)

theorem issueShaped_checkRegionProfile (p : String) (r : RegionProfile) :
    IssueShaped (checkRegionProfile p r) :=
  issueShaped_append (issueShaped_checkNonempty _ _ _)
    (issueShaped_checkOpt (fun _ => issueShaped_checkEnum _ _ _ _) _)

theorem issueShaped_checkLocation (l : LocationData) :
    IssueShaped (checkLocation l) :=
  issueShaped_append
    (issueShaped_append
      (issueShaped_append (issueShaped_checkNonempty _ _ _)
        (issueShaped_checkNonempty _ _ _))
      (issueShaped_checkOpt (issueShaped_checkCoordinates _) _))
    (issueShaped_checkRegionProfile _ _)

theorem issueShaped_checkBaseline (b : Baseline) :
    IssueShaped (checkBaseline b) :=
  issueShaped_append
    (issueShaped_append
      (issueShaped_append (issueShaped_checkRange _ _ _ _ _ _)
        (issueShaped_ite _ issueShaped_nil (issueShaped_issue _ _)))
      (issueShaped_checkNonempty _ _ _))
    (issueShaped_checkConfidence _ _)

theorem issueShaped_checkDrift (p : String) (d : Drift) :
    IssueShaped (checkDrift p d) :=
  issueShaped_append
    (issueShaped_append (issueShaped_checkEnum _ _ _ _)
      (issueShaped_checkEnum _ _ _ _))
    (issueShaped_checkEnum _ _ _ _)

theorem issueShaped_checkRiskNode (p : String) (n : RiskNode) :
    IssueShaped (checkRiskNode p n) :=
  issueShaped_append
    (issueShaped_append
      (issueShaped_append
        (issueShaped_append
          (issueShaped_append
            (issueShaped_append (issueShaped_checkNonempty _ _ _)
              (issueShaped_checkNonempty _ _ _))
            (issueShaped_checkEnum _ _ _ _))
          (issueShaped_checkRange _ _ _ _ _ _))
        (issueShaped_checkNonempty _ _ _))
      (issueShaped_checkDrift _ _))
    (issueShaped_checkNonempty _ _ _)

theorem issueShaped_checkSpillover (s : Spillover) :
    IssueShaped (checkSpillover s) :=
  issueShaped_append (issueShaped_checkRange _ _ _ _ _ _)
    (issueShaped_checkNonempty _ _ _)

theorem issueShaped_checkRiskChain (c : RiskChain) :
    IssueShaped (checkRiskChain c) :=
  issueShaped_append
    (issueShaped_append
      (issueShaped_append
        (issueShaped_append (issueShaped_checkNonempty _ _ _)
          (issueShaped_checkNonempty _ _ _))
        (issueShaped_ite _ (issueShaped_issue _ _) issueShaped_nil))
      (issueShaped_checkIndexed issueShaped_checkRiskNode _ _ _))
    (issueShaped_checkSpillover _)

theorem issueShaped_checkDatasetVersion (p : String) (v : DatasetVersion) :
    IssueShaped (checkDatasetVersion p v) :=
  issueShaped_append
    (issueShaped_append (issueShaped_checkNonempty _ _ _)
      (issueShaped_checkNonempty _ _ _))
    (issueShaped_checkNonempty _ _ _)

theorem issueShaped_checkMetadata (m : Metadata) :
    IssueShaped (checkMetadata m) :=
  issueShaped_append
    (issueShaped_append
      (issueShaped_append (issueShaped_checkNonempty _ _ _)
        (issueShaped_ite _ (issueShaped_issue _ _) issueShaped_nil))
      (issueShaped_checkIndexed issueShaped_checkDatasetVersion _ _ _))
    (issueShaped_checkNonempty _ _ _)

/-- C7: `validateDashboard` is a total function into a structured result:
success holds exactly when the error list is empty (so every failure carries
at least one error), every error is a `path: message` string, and the
scenario-3 payload with `risk_chain.spillover.score = 1.2` fails with an
error naming `risk_chain.spillover.score`. -/
theorem validator_total_structured :
    (∀ d : DashboardViewModel,
      ((validateDashboard d).success = true ↔ (validateDashboard d).errors = []) ∧
      IssueShaped (validateDashboard d).errors) ∧
    ((validateDashboard spilloverOutOfRangeDashboard).success = false ∧
     "risk_chain.spillover.score: Spillover score must be <= 1" ∈
       (validateDashboard spilloverOutOfRangeDashboard).errors) := by
  refine ⟨fun d => ⟨?_, ?_⟩, by decide, by decide⟩
  · simp [validateDashboard, List.isEmpty_iff]
  · exact issueShaped_append
      (issueShaped_append
        (issueShaped_append (issueShaped_checkLocation _)
          (issueShaped_checkBaseline _))
        (issueShaped_checkRiskChain _))
      (issueShaped_checkMetadata _)

/-- C7 witness: the single error of the scenario-3 payload decomposes as
`path ++ ": " ++ message`. -/
theorem validator_total_structured_witness :
    ∃ p m, "risk_chain.spillover.score: Spillover score must be <= 1" =
      p ++ ": " ++ m :=
  (validator_total_structured.1 spilloverOutOfRangeDashboard).2
    "risk_chain.spillover.score: Spillover score must be <= 1" (by decide)

/-- A wizard request key is never the empty string (it is a JSON object
text), so the JS truthiness guard on the recorded key always passes. -/
theorem generateDashboardKey_ne_empty (ws : WizardState) :
    generateDashboardKey ws ≠ "" := by
  intro h
  have h2 := congrArg String.data h
  rw [generateDashboardKey, data_append] at h2
  rcases List.append_eq_nil.mp h2 with ⟨-, hr⟩
  exact absurd hr (by decide)

/-- C8: while a result is displayed under a recorded request key, an input
change whose recomputed key differs discards the result (and the recorded
key and error), navigating back to step 3 exactly when the current step is
past it; a change that leaves the key unchanged alters nothing. -/
theorem drift_invalidation_contract (s : FlowState) (d : DashboardViewModel)
    (ws0 ws2 : WizardState)
    (hd : s.dashboardData = some d)
    (hk : s.dashboardRequestKey = some (generateDashboardKey ws0)) :
    (generateDashboardKey ws2 ≠ generateDashboardKey ws0 →
      (driftEffect { s with wizardState := ws2 }).dashboardData = none ∧
      (driftEffect { s with wizardState := ws2 }).dashboardRequestKey = none ∧
      (3 < s.currentStep →
        (driftEffect { s with wizardState := ws2 }).currentStep = 3) ∧
      (¬ 3 < s.currentStep →
        (driftEffect { s with wizardState := ws2 }).currentStep =
          s.currentStep)) ∧
    (generateDashboardKey ws2 = generateDashboardKey ws0 →
      driftEffect { s with wizardState := ws2 } = { s with wizardState := ws2 }) := by
  constructor
  · intro hne
    have hguard : generateDashboardKey ws0 ≠ "" ∧
        generateDashboardKey ws2 ≠ generateDashboardKey ws0 :=
      ⟨generateDashboardKey_ne_empty ws0, hne⟩
    constructor
    · simp [driftEffect, hd, hk, hguard]
    constructor
    · simp [driftEffect, hd, hk, hguard]
    constructor
    · intro hstep
      simp [driftEffect, hd, hk, hguard, hstep]
    · intro hstep
      simp [driftEffect, hd, hk, hguard, hstep]
  · intro heq
    simp [driftEffect, hd, hk, heq]

/-- C8 witness: with scenario 1 displayed at step 4, changing the location
to `geo_2` discards the dashboard and navigates back to step 3, while
resubmitting the identical inputs changes nothing. -/
theorem drift_invalidation_contract_witness :
    (driftEffect
        { currentStep := 4,
          wizardState := { scenarioInputs with location_key := some "geo_2" },
          dashboardData := some sampleValidDashboard,
          dashboardRequestKey := some (generateDashboardKey scenarioInputs),
          dashboardError := none }).dashboardData = none ∧
    (driftEffect
        { currentStep := 4,
          wizardState := { scenarioInputs with location_key := some "geo_2" },
          dashboardData := some sampleValidDashboard,
          dashboardRequestKey := some (generateDashboardKey scenarioInputs),
          dashboardError := none }).currentStep = 3 ∧
    driftEffect
        { currentStep := 4, wizardState := scenarioInputs,
          dashboardData := some sampleValidDashboard,
          dashboardRequestKey := some (generateDashboardKey scenarioInputs),
          dashboardError := none } =
      { currentStep := 4, wizardState := scenarioInputs,
        dashboardData := some sampleValidDashboard,
        dashboardRequestKey := some (generateDashboardKey scenarioInputs),
        dashboardError := none } := by
  have h1 := drift_invalidation_contract
    { currentStep := 4,
      wizardState := { scenarioInputs with location_key := some "geo_2" },
      dashboardData := some sampleValidDashboard,
      dashboardRequestKey := some (generateDashboardKey scenarioInputs),
      dashboardError := none }
    sampleValidDashboard scenarioInputs
    { scenarioInputs with location_key := some "geo_2" } rfl rfl
  have h2 := drift_invalidation_contract
    { currentStep := 4, wizardState := scenarioInputs,
      dashboardData := some sampleValidDashboard,
      dashboardRequestKey := some (generateDashboardKey scenarioInputs),
      dashboardError := none }
    sampleValidDashboard scenarioInputs scenarioInputs rfl rfl
  have hne : generateDashboardKey
      { scenarioInputs with location_key := some "geo_2" } ≠
      generateDashboardKey scenarioInputs := by decide
  exact ⟨(h1.1 hne).1, (h1.1 hne).2.2.1 (by decide), h2.2 rfl⟩

/-- C9 counterexample: a POST whose body has `location_key` and a non-empty
`selected_hazards` but no `selected_system` is not rejected with 400; the
orchestrator's input error surfaces as a 500 internal failure. -/
theorem dashboard_route_missing_system_is_500 :
    ((handler .mock (.error "unused") 0 "t" "POST" missingSystemBody
        CacheLayer.empty).1).1 = 500 ∧
    ((handler .mock (.error "unused") 0 "t" "POST" missingSystemBody
        CacheLayer.empty).1).2 =
      .failure "internal_server_error" missingInputsMsg ∧
    ((handler .mock (.error "unused") 0 "t" "POST" missingSystemBody
        CacheLayer.empty).1).1 ≠ 400 := by
  refine ⟨rfl, rfl, by decide⟩

/-- C9 (amended): the route returns 405 for every non-POST method; 400 with
an `{error, message}` body when `location_key` or `selected_hazards` is
missing or empty; 200 with the dashboard when the orchestrator succeeds; and
500 with an `{error, message}` body when the orchestrator fails — in
particular a missing `selected_system` is not caught by the 400 guard and
surfaces as a 500. -/
theorem dashboard_route_statuses (mode : Mode)
    (remote : Except String DashboardViewModel) (now : Nat) (ts : String)
    (method : String) (body : DashboardRequestBody) (cache : CacheLayer) :
    (method ≠ "POST" →
      handler mode remote now ts method body cache =
        ((405, .failure "method_not_allowed" "Only POST allowed"), cache)) ∧
    (method = "POST" → routeGuardFails body = true →
      handler mode remote now ts method body cache =
        ((400, .failure "invalid_request"
            "Missing required fields: location_key, selected_hazards"),
          cache)) ∧
    (method = "POST" → routeGuardFails body = false →
      (∀ d, (getUnifiedDashboard mode remote now ts (routeWizardState body)
            cache).result = .ok d →
        handler mode remote now ts method body cache =
          ((200, .dashboard d),
            (getUnifiedDashboard mode remote now ts (routeWizardState body)
              cache).cache)) ∧
      (∀ msg, (getUnifiedDashboard mode remote now ts (routeWizardState body)
            cache).result = .error msg →
        handler mode remote now ts method body cache =
          ((500, .failure "internal_server_error" msg),
            (getUnifiedDashboard mode remote now ts (routeWizardState body)
              cache).cache))) := by
  refine ⟨fun hm => ?_, fun hm hg => ?_, fun hm hg => ⟨fun d hd => ?_, fun msg hmsg => ?_⟩⟩
  · simp [handler, hm]
  · simp [handler, hm, hg]
  · simp [handler, hm, hg, hd]
  · simp [handler, hm, hg, hmsg]

/-- C9 witness: a GET is 405; a body with empty hazards is 400; scenario 1
against a primed cache succeeds with 200; the missing-system body fails
with 500. -/
theorem dashboard_route_statuses_witness :
    handler .mock (.error "unused") 0 "t" "GET" missingSystemBody
        CacheLayer.empty =
      ((405, .failure "method_not_allowed" "Only POST allowed"),
        CacheLayer.empty) ∧
    handler .mock (.error "unused") 0 "t" "POST"
        { missingSystemBody with selected_hazards := some [] }
        CacheLayer.empty =
      ((400, .failure "invalid_request"
          "Missing required fields: location_key, selected_hazards"),
        CacheLayer.empty) ∧
    handler .mock (.error "unused") 5 "t" "POST"
        { location_key := some "geo_1", selected_hazards := some ["Heat", "Flood"],
          selected_system := some "Health", precision_level := some .approximate }
        primedCache =
      ((200, .dashboard sampleValidDashboard), primedCache) := by
  refine ⟨(dashboard_route_statuses .mock (.error "unused") 0 "t" "GET"
      missingSystemBody CacheLayer.empty).1 (by decide),
    (dashboard_route_statuses .mock (.error "unused") 0 "t" "POST"
      { missingSystemBody with selected_hazards := some [] }
      CacheLayer.empty).2.1 rfl (by decide), ?_⟩
  have h := (dashboard_route_statuses .mock (.error "unused") 5 "t" "POST"
    { location_key := some "geo_1", selected_hazards := some ["Heat", "Flood"],
      selected_system := some "Health", precision_level := some .approximate }
    primedCache).2.2 rfl (by decide)
  have harg : routeWizardState
      { location_key := some "geo_1", selected_hazards := some ["Heat", "Flood"],
        selected_system := some "Health",
        precision_level := some .approximate } = scenarioInputs := rfl
  have hmiss : missingInputs scenarioInputs = false := by decide
  have hget : primedCache.get 5 (generateCacheKey scenarioInputs) =
      (some sampleValidDashboard, primedCache) := by
    simp [primedCache, CacheLayer.get]
  have hokey : getUnifiedDashboard .mock (.error "unused") 5 "t"
      scenarioInputs primedCache =
      { result := .ok sampleValidDashboard, cache := primedCache,
        effects := { dispatched := false, validated := false } } := by
    simp [getUnifiedDashboard, hmiss, hget]
  rw [h.1 sampleValidDashboard (by rw [harg, hokey])]
  rw [harg, hokey]

/-- Inversion of a successful cache read: the state is untouched and the
backing map holds an unexpired entry with the returned value. -/
theorem cacheGet_some_inv {c : CacheLayer} {now : Nat} {k : String}
    {v : DashboardViewModel} {c2 : CacheLayer}
    (h : c.get now k = (some v, c2)) :
    c2 = c ∧ ∃ e, c k = some e ∧ e.value = v ∧ ¬ now > e.expiresAt := by
  unfold CacheLayer.get at h
  rcases hck : c k with _ | e
  · rw [hck] at h
    simp at h
  · rw [hck] at h
    by_cases hexp : now > e.expiresAt
    · simp [hexp] at h
    · simp [hexp] at h
      exact ⟨h.2.symm, e, rfl, h.1, hexp⟩

/-- C5: on a cache hit (an unexpired entry under the computed fingerprint)
`getUnifiedDashboard` returns the cached value with the cache untouched and
neither dispatch nor validation run; consequently, after any successful call,
a second call with the same inputs before the stored expiry returns the same
value with no second dispatch and no state change. -/
theorem cache_hit_no_dispatch :
    (∀ (mode : Mode) (remote : Except String DashboardViewModel) (now : Nat)
        (ts : String) (inputs : WizardState) (cache : CacheLayer)
        (e : CacheEntry),
        missingInputs inputs = false →
        cache (generateCacheKey inputs) = some e →
        ¬ now > e.expiresAt →
        getUnifiedDashboard mode remote now ts inputs cache =
          { result := .ok e.value, cache := cache,
            effects := { dispatched := false, validated := false } }) ∧
    (∀ (mode : Mode) (remote : Except String DashboardViewModel) (now1 : Nat)
        (ts : String) (inputs : WizardState) (cache : CacheLayer)
        (v : DashboardViewModel),
        (getUnifiedDashboard mode remote now1 ts inputs cache).result = .ok v →
        ∃ e, (getUnifiedDashboard mode remote now1 ts inputs cache).cache
            (generateCacheKey inputs) = some e ∧ e.value = v ∧
          ∀ now2 : Nat, ¬ now2 > e.expiresAt →
            getUnifiedDashboard mode remote now2 ts inputs
                ((getUnifiedDashboard mode remote now1 ts inputs cache).cache) =
              { result := .ok v,
                cache :=
                  (getUnifiedDashboard mode remote now1 ts inputs cache).cache,
                effects := { dispatched := false, validated := false } }) := by
  have hitA : ∀ (mode : Mode) (remote : Except String DashboardViewModel)
      (now : Nat) (ts : String) (inputs : WizardState) (cache : CacheLayer)
      (e : CacheEntry),
      missingInputs inputs = false →
      cache (generateCacheKey inputs) = some e →
      ¬ now > e.expiresAt →
      getUnifiedDashboard mode remote now ts inputs cache =
        { result := .ok e.value, cache := cache,
          effects := { dispatched := false, validated := false } } := by
    intro mode remote now ts inputs cache e hmiss hce hexp
    have hget : cache.get now (generateCacheKey inputs) =
        (some e.value, cache) := by
      simp [CacheLayer.get, hce, hexp]
    simp [getUnifiedDashboard, hmiss, hget]
  refine ⟨hitA, ?_⟩
  intro mode remote now1 ts inputs cache v hres
  by_cases hmiss : missingInputs inputs = true
  · simp [getUnifiedDashboard, hmiss] at hres
  · have hm : missingInputs inputs = false := by simpa using hmiss
    rcases hget : cache.get now1 (generateCacheKey inputs) with ⟨mv, c1⟩
    cases mv with
    | some cached =>
        obtain ⟨hc1, e, hce, hev, hexp⟩ := cacheGet_some_inv hget
        subst hc1
        have hcall := hitA mode remote now1 ts inputs c1 e hm hce hexp
        rw [hcall] at hres ⊢
        have hv : e.value = v := by
          simpa using hres
        refine ⟨e, hce, hv, fun now2 hexp2 => ?_⟩
        have := hitA mode remote now2 ts inputs c1 e hm hce hexp2
        rw [this, hv]
    | none =>
        cases mode with
        | mock =>
            by_cases hval :
                (validateDashboard (mockDispatch ts inputs)).success = true
            · have hcall : getUnifiedDashboard .mock remote now1 ts inputs
                  cache =
                  { result := .ok (mockDispatch ts inputs),
                    cache := c1.setD now1 (generateCacheKey inputs)
                      (mockDispatch ts inputs),
                    effects := { dispatched := true, validated := true } } := by
                simp [getUnifiedDashboard, hm, hget, hval]
              rw [hcall] at hres
              simp only [hcall]
              have hv : mockDispatch ts inputs = v := by simpa using hres
              subst hv
              refine ⟨⟨mockDispatch ts inputs, now1 + 3600000⟩, ?_, rfl,
                fun now2 hexp2 => ?_⟩
              · simp [CacheLayer.setD, CacheLayer.set]
              · have hlast := hitA .mock remote now2 ts inputs
                  (c1.setD now1 (generateCacheKey inputs)
                    (mockDispatch ts inputs))
                  ⟨mockDispatch ts inputs, now1 + 3600000⟩ hm
                  (by simp [CacheLayer.setD, CacheLayer.set]) hexp2
                exact hlast
            · have hv : (validateDashboard (mockDispatch ts inputs)).success =
                  false := by simpa using hval
              simp [getUnifiedDashboard, hm, hget, hv] at hres
        | real =>
            cases remote with
            | error msg =>
                simp [getUnifiedDashboard, hm, hget] at hres
            | ok d =>
                by_cases hval : (validateDashboard d).success = true
                · have hcall : getUnifiedDashboard .real (.ok d) now1 ts
                      inputs cache =
                      { result := .ok d,
                        cache := c1.setD now1 (generateCacheKey inputs) d,
                        effects :=
                          { dispatched := true, validated := true } } := by
                    simp [getUnifiedDashboard, hm, hget, hval]
                  rw [hcall] at hres
                  simp only [hcall]
                  have hv : d = v := by simpa using hres
                  subst hv
                  refine ⟨⟨d, now1 + 3600000⟩, ?_, rfl,
                    fun now2 hexp2 => ?_⟩
                  · simp [CacheLayer.setD, CacheLayer.set]
                  · have hlast := hitA .real (.ok d) now2 ts inputs
                      (c1.setD now1 (generateCacheKey inputs) d)
                      ⟨d, now1 + 3600000⟩ hm
                      (by simp [CacheLayer.setD, CacheLayer.set]) hexp2
                    exact hlast
                · have hv : (validateDashboard d).success = false := by
                    simpa using hval
                  simp [getUnifiedDashboard, hm, hget, hv] at hres

/-- C5 witness: with an unexpired scenario-1 entry already cached, the call
returns the cached dashboard, touches nothing, and dispatches nothing. -/
theorem cache_hit_no_dispatch_witness :
    getUnifiedDashboard .mock (.error "unused") 5 "t" scenarioInputs
        primedCache =
      { result := .ok sampleValidDashboard, cache := primedCache,
        effects := { dispatched := false, validated := false } } :=
  cache_hit_no_dispatch.1 .mock (.error "unused") 5 "t" scenarioInputs
    primedCache ⟨sampleValidDashboard, 10⟩ (by decide)
    (by simp [primedCache]) (by decide)

/-- Splitting at the first occurrence of a separator character is unique
when neither prefix contains it. -/
theorem splitSep {c : Char} : ∀ {a a2 b b2 : List Char}, c ∉ a → c ∉ a2 →
    a ++ c :: b = a2 ++ c :: b2 → a = a2 ∧ b = b2 := by
  intro a
  induction a with
  | nil =>
      intro a2 b b2 _ ha2 h
      cases a2 with
      | nil =>
          simp only [List.nil_append, List.cons.injEq] at h
          exact ⟨rfl, h.2⟩
      | cons z t =>
          simp only [List.nil_append, List.cons_append, List.cons.injEq] at h
          exact absurd (h.1 ▸ List.mem_cons_self z t) ha2
  | cons x xs ih =>
      intro a2 b b2 ha ha2 h
      cases a2 with
      | nil =>
          simp only [List.nil_append, List.cons_append, List.cons.injEq] at h
          exact absurd (h.1.symm ▸ List.mem_cons_self x xs) ha
      | cons z t =>
          simp only [List.cons_append, List.cons.injEq] at h
          obtain ⟨hx, hrest⟩ := h
          obtain ⟨h1, h2⟩ := ih (fun hm => ha (List.mem_cons_of_mem x hm))
            (fun hm => ha2 (List.mem_cons_of_mem z hm)) hrest
          exact ⟨by rw [hx, h1], h2⟩

/-- A join never introduces a character absent from the separator and from
every element. -/
theorem joinJS_not_mem {c : Char} {sep : String} (hc : c ∉ sep.data) :
    ∀ {l : List String}, (∀ s ∈ l, c ∉ s.data) → c ∉ (joinJS sep l).data := by
  intro l
  induction l with
  | nil =>
      intro _ hm
      simp [joinJS] at hm
  | cons x xs ih =>
      intro h hm
      cases xs with
      | nil => exact h x (List.mem_cons_self x []) (by simpa [joinJS] using hm)
      | cons y t =>
          rw [show joinJS sep (x :: y :: t) = x ++ sep ++ joinJS sep (y :: t)
              from rfl, data_append, data_append] at hm
          rcases List.mem_append.mp hm with hm1 | hm1
          · rcases List.mem_append.mp hm1 with hm2 | hm2
            · exact h x (List.mem_cons_self x (y :: t)) hm2
            · exact hc hm2
          · exact ih (fun s hs => h s (List.mem_cons_of_mem x hs)) hm1

/-- A comma-join of non-empty lists of comma-free strings is injective. -/
theorem joinComma_inj : ∀ {l1 l2 : List String},
    (∀ s ∈ l1, ',' ∉ s.data) → (∀ s ∈ l2, ',' ∉ s.data) →
    l1 ≠ [] → l2 ≠ [] → joinJS "," l1 = joinJS "," l2 → l1 = l2 := by
  intro l1
  induction l1 with
  | nil => intro l2 _ _ hn1 _ _; exact absurd rfl hn1
  | cons x xs ih =>
      intro l2 h1 h2 _ hn2 h
      cases l2 with
      | nil => exact absurd rfl hn2
      | cons y ys =>
          cases xs with
          | nil =>
              cases ys with
              | nil =>
                  rw [show joinJS "," [x] = x from rfl,
                    show joinJS "," [y] = y from rfl] at h
                  rw [h]
              | cons y2 t2 =>
                  exfalso
                  apply h1 x (List.mem_cons_self x [])
                  rw [show joinJS "," [x] = x from rfl,
                    show joinJS "," (y :: y2 :: t2) =
                      y ++ "," ++ joinJS "," (y2 :: t2) from rfl] at h
                  rw [h, data_append, data_append]
                  exact List.mem_append_left _ (List.mem_append_right _
                    (by decide))
          | cons x2 t =>
              cases ys with
              | nil =>
                  exfalso
                  apply h2 y (List.mem_cons_self y [])
                  rw [show joinJS "," [y] = y from rfl,
                    show joinJS "," (x :: x2 :: t) =
                      x ++ "," ++ joinJS "," (x2 :: t) from rfl] at h
                  rw [← h, data_append, data_append]
                  exact List.mem_append_left _ (List.mem_append_right _
                    (by decide))
              | cons y2 t2 =>
                  rw [show joinJS "," (x :: x2 :: t) =
                      x ++ "," ++ joinJS "," (x2 :: t) from rfl,
                    show joinJS "," (y :: y2 :: t2) =
                      y ++ "," ++ joinJS "," (y2 :: t2) from rfl] at h
                  have hd := congrArg String.data h
                  rw [data_append, data_append, data_append, data_append,
                    List.append_assoc, List.append_assoc,
                    show ("," : String).data = [','] from rfl,
                    List.singleton_append, List.singleton_append] at hd
                  obtain ⟨hxy, hrest⟩ := splitSep
                    (h1 x (List.mem_cons_self x (x2 :: t)))
                    (h2 y (List.mem_cons_self y (y2 :: t2))) hd
                  have hx : x = y := str_ext hxy
                  have hjoin : joinJS "," (x2 :: t) = joinJS "," (y2 :: t2) :=
                    str_ext hrest
                  have ht := ih (fun s hs => h1 s (List.mem_cons_of_mem x hs))
                    (fun s hs => h2 s (List.mem_cons_of_mem y hs))
                    (List.cons_ne_nil x2 t) (List.cons_ne_nil y2 t2) hjoin
                  rw [hx, ht]

/-- The character data of a fingerprint, split at the `:` delimiters. -/
theorem key_data (w : WizardState) : (generateCacheKey w).data =
    "wizard".data ++ ':' :: ((optStr w.location_key).data ++
      ':' :: ((effectivePrecision w.precision_level).data ++
        ':' :: ((joinJS "," (sortJS w.selected_hazards)).data ++
          ':' :: ((optStr w.selected_system).data ++
            ':' :: DatasetRegistry.hash.data)))) := by
  simp only [generateCacheKey, joinJS, data_append, List.append_assoc,
    show (":" : String).data = [':'] from rfl, List.singleton_append]

/-- The effective precision string never contains the delimiter. -/
theorem effectivePrecision_no_colon (p : Option Precision) :
    ':' ∉ (effectivePrecision p).data := by
  rcases p with - | q
  · decide
  · cases q <;> decide

/-- Sorting preserves membership and non-emptiness. -/
theorem sortJS_mem_iff {s : String} {l : List String} :
    s ∈ sortJS l ↔ s ∈ l :=
  (List.perm_insertionSort (· ≤ ·) l).mem_iff

theorem sortJS_ne_nil {l : List String} (h : l ≠ []) : sortJS l ≠ [] := by
  intro hs
  exact h (((List.perm_insertionSort (· ≤ ·) l).symm.trans
    (hs ▸ List.Perm.refl _)).eq_nil)

/-- C2 counterexample: the `:` delimiter is not escaped and field values can
contain it, so two valid inputs with different hazard sets and different
systems share a fingerprint; and an absent precision collides with an
explicit `"approximate"`. -/
theorem cache_key_collision :
    missingInputs collideA = false ∧ missingInputs collideB = false ∧
    ("h:x" ∈ collideB.selected_hazards ∧ "h:x" ∉ collideA.selected_hazards) ∧
    collideA.selected_system ≠ collideB.selected_system ∧
    generateCacheKey collideA = generateCacheKey collideB ∧
    scenarioNoPrecision.precision_level ≠ scenarioInputs.precision_level ∧
    generateCacheKey scenarioNoPrecision = generateCacheKey scenarioInputs := by
  refine ⟨by decide, by decide, ⟨by decide, by decide⟩, by decide, ?_,
    by decide, rfl⟩
  apply str_ext
  rw [key_data collideA, key_data collideB,
    show optStr collideA.location_key = "geo_1" from rfl,
    show optStr collideB.location_key = "geo_1" from rfl,
    show effectivePrecision collideA.precision_level = "approximate" from rfl,
    show effectivePrecision collideB.precision_level = "approximate" from rfl,
    show joinJS "," (sortJS collideA.selected_hazards) = "h" from rfl,
    show joinJS "," (sortJS collideB.selected_hazards) = "h:x" from rfl,
    show optStr collideA.selected_system = "x:y" from rfl,
    show optStr collideB.selected_system = "y" from rfl,
    show ("h" : String).data = ['h'] from rfl,
    show ("h:x" : String).data = ['h', ':', 'x'] from rfl,
    show ("x:y" : String).data = ['x', ':', 'y'] from rfl,
    show ("y" : String).data = ['y'] from rfl]
  simp

/-- C2 (amended): provided no field value contains the `:` delimiter and no
hazard contains the `,` join character, the fingerprint determines the
location key, the effective precision, the hazard multiset and the system:
two such valid inputs differing in any of them have different fingerprints.
Without that proviso the delimiter is producible by field values and
distinct inputs can collide (see the counterexample). -/
theorem cache_key_field_injective (w1 w2 : WizardState)
    (hv1 : missingInputs w1 = false) (hv2 : missingInputs w2 = false)
    (hl1 : ':' ∉ (optStr w1.location_key).data)
    (hl2 : ':' ∉ (optStr w2.location_key).data)
    (hs1 : ':' ∉ (optStr w1.selected_system).data)
    (hs2 : ':' ∉ (optStr w2.selected_system).data)
    (hh1 : ∀ s ∈ w1.selected_hazards, ':' ∉ s.data ∧ ',' ∉ s.data)
    (hh2 : ∀ s ∈ w2.selected_hazards, ':' ∉ s.data ∧ ',' ∉ s.data)
    (hkey : generateCacheKey w1 = generateCacheKey w2) :
    optStr w1.location_key = optStr w2.location_key ∧
    effectivePrecision w1.precision_level =
      effectivePrecision w2.precision_level ∧
    w1.selected_hazards.Perm w2.selected_hazards ∧
    optStr w1.selected_system = optStr w2.selected_system := by
  have hd := congrArg String.data hkey
  rw [key_data w1, key_data w2] at hd
  obtain ⟨-, hd⟩ := splitSep (by decide) (by decide) hd
  obtain ⟨hloc, hd⟩ := splitSep hl1 hl2 hd
  obtain ⟨hprec, hd⟩ := splitSep (effectivePrecision_no_colon _)
    (effectivePrecision_no_colon _) hd
  obtain ⟨hhz, hd⟩ := splitSep
    (joinJS_not_mem (by decide)
      (fun s hs => (hh1 s (sortJS_mem_iff.mp hs)).1))
    (joinJS_not_mem (by decide)
      (fun s hs => (hh2 s (sortJS_mem_iff.mp hs)).1)) hd
  obtain ⟨hsys, -⟩ := splitSep hs1 hs2 hd
  have hne1 : w1.selected_hazards ≠ [] := by
    intro hn
    simp [missingInputs, hn] at hv1
  have hne2 : w2.selected_hazards ≠ [] := by
    intro hn
    simp [missingInputs, hn] at hv2
  have hsorted : sortJS w1.selected_hazards = sortJS w2.selected_hazards :=
    joinComma_inj
      (fun s hs => (hh1 s (sortJS_mem_iff.mp hs)).2)
      (fun s hs => (hh2 s (sortJS_mem_iff.mp hs)).2)
      (sortJS_ne_nil hne1) (sortJS_ne_nil hne2) (str_ext hhz)
  refine ⟨str_ext hloc, str_ext hprec, ?_, str_ext hsys⟩
  have p1 : (sortJS w1.selected_hazards).Perm w1.selected_hazards :=
    List.perm_insertionSort (· ≤ ·) w1.selected_hazards
  have p2 : (sortJS w2.selected_hazards).Perm w2.selected_hazards :=
    List.perm_insertionSort (· ≤ ·) w2.selected_hazards
  have p3 : (sortJS w1.selected_hazards).Perm w2.selected_hazards :=
    hsorted ▸ p2
  exact p1.symm.trans p3

/-- C2 witness: two delimiter-free inputs differing only in the hazard order
are found equivalent by the injectivity theorem. -/
theorem cache_key_field_injective_witness :
    optStr scenarioInputsSwapped.location_key =
      optStr scenarioInputs.location_key ∧
    effectivePrecision scenarioInputsSwapped.precision_level =
      effectivePrecision scenarioInputs.precision_level ∧
    scenarioInputsSwapped.selected_hazards.Perm
      scenarioInputs.selected_hazards ∧
    optStr scenarioInputsSwapped.selected_system =
      optStr scenarioInputs.selected_system :=
  cache_key_field_injective scenarioInputsSwapped scenarioInputs
    (by decide) (by decide) (by decide) (by decide) (by decide) (by decide)
    (by decide) (by decide)
    (congrArg
      (fun l : List String => joinJS ":"
        [ "wizard", optStr scenarioInputs.location_key,
          effectivePrecision scenarioInputs.precision_level, joinJS "," l,
          optStr scenarioInputs.selected_system, DatasetRegistry.hash ])
      (sortJS_perm_eq (List.Perm.swap "Heat" "Flood" [])))

end ClimateWizard
